import Mathlib

/-!
Verification of the sphero-ball joystick driver
(`src/spheroball/driveWithJoystick.py`) against its natural-language
specification.  Python floats are modelled as rationals, Python ints as
integers (Python's `%` on a positive modulus agrees with `Int.emod`), and
the side-effecting SDK calls of the dead-reckoning executor are modelled as
an explicit trace of actions.
-/

namespace SpheroBall

/-- Module constant `TILE_CM = 50.0` (one tile is 50 cm). -/
def TILE_CM : ℚ := 50

/-- Module constant `RUN_SPEED = 150`. -/
def RUN_SPEED : ℤ := 150

/-- Module constant `SPEED_CM_PER_S = 70.0` (measured cm/s at RUN_SPEED). -/
def SPEED_CM_PER_S : ℚ := 70

/-- Module constant `SAFETY = 0.96`. -/
def SAFETY : ℚ := 96 / 100

/-- Module constant `HEADING_SETTLE = 0.12`. -/
def HEADING_SETTLE : ℚ := 12 / 100

/-- The method `SpheroController.tiles_to_seconds`, generalised over the
module constant `SPEED_CM_PER_S` so that scaling in the speed constant can
be stated: `cm = tiles * TILE_CM; return (cm / max(1e-6, speed)) * SAFETY`. -/
def tiles_to_seconds_gen (speedCmPerS : ℚ) (tiles : ℚ) : ℚ :=
  let cm := tiles * TILE_CM
  (cm / max (1 / 1000000) speedCmPerS) * SAFETY

/-- The method `SpheroController.tiles_to_seconds` exactly as in the source,
with the module constant `SPEED_CM_PER_S` in place. -/
def tiles_to_seconds (tiles : ℚ) : ℚ :=
  tiles_to_seconds_gen SPEED_CM_PER_S tiles

/-- The heading computation of `roll_forward_rel`, line 70:
`abs_heading = int((self.base_heading + rel_heading_deg) % 360)`. -/
def relToAbs (base rel : ℤ) : ℤ := (base + rel) % 360

/-- One SDK call issued by the dead-reckoning executor. -/
inductive Action where
  | setHeading (heading : ℤ)
  | sleep (seconds : ℚ)
  | roll (speed : ℤ) (heading : ℤ) (duration : ℚ)
  | setSpeed (speed : ℤ)
deriving DecidableEq

/-- Trace of SDK calls made by `SpheroController.roll_forward_rel`
(lines 67-76): set_heading, sleep HEADING_SETTLE, roll, set_speed(0),
sleep 0.08. -/
def roll_forward_rel (base rel : ℤ) (tiles : ℚ) (speed : ℤ) : List Action :=
  let abs_heading := relToAbs base rel
  [Action.setHeading abs_heading,
   Action.sleep HEADING_SETTLE,
   Action.roll speed abs_heading (tiles_to_seconds tiles),
   Action.setSpeed 0,
   Action.sleep (8 / 100)]

/-- Modelled from the spec: the per-segment action sequence claimed by the
specification (section 4.1 and claim C1), which begins with a stop before
the heading command: stop, set heading, settle sleep, timed roll, stop,
stabilisation sleep. -/
def claimedSegmentTrace (base rel : ℤ) (tiles : ℚ) (speed : ℤ) : List Action :=
  let abs_heading := relToAbs base rel
  [Action.setSpeed 0,
   Action.setHeading abs_heading,
   Action.sleep HEADING_SETTLE,
   Action.roll speed abs_heading (tiles_to_seconds tiles),
   Action.setSpeed 0,
   Action.sleep (8 / 100)]

/-- Modelled from the spec: the amended per-segment action sequence, which
matches the spec's claim except that no stop is issued before the heading
command, and whose roll duration is spelled out as
distance x TILE_CM / SPEED_CM_PER_S x SAFETY. -/
def amendedSegmentTrace (base rel : ℤ) (tiles : ℚ) (speed : ℤ) : List Action :=
  [Action.setHeading ((base + rel) % 360),
   Action.sleep HEADING_SETTLE,
   Action.roll speed ((base + rel) % 360) (tiles * TILE_CM / SPEED_CM_PER_S * SAFETY),
   Action.setSpeed 0,
   Action.sleep (8 / 100)]

/-- Helper: the concrete conversion collapses to multiplication by 24/35. -/
theorem tiles_to_seconds_eq (t : ℚ) : tiles_to_seconds t = t * (24 / 35) := by
  simp only [tiles_to_seconds, tiles_to_seconds_gen, TILE_CM, SPEED_CM_PER_S, SAFETY]
  norm_num
  ring

/-- C2: for every non-negative distance in tiles, the conversion returns
exactly distance x TILE_CM / SPEED_CM_PER_S x SAFETY (the max-guard on the
divisor is inert since SPEED_CM_PER_S = 70 exceeds 1e-6), and the safety
margin is strictly less than 1. -/
theorem C2_duration_formula (tiles : ℚ) (h : 0 ≤ tiles) :
    tiles_to_seconds tiles = tiles * TILE_CM / SPEED_CM_PER_S * SAFETY ∧
    SAFETY < 1 := by
  constructor
  · rw [tiles_to_seconds_eq]
    simp only [TILE_CM, SPEED_CM_PER_S, SAFETY]
    ring
  · norm_num [SAFETY]

/-- Witness for C2 at distance 3. -/
theorem C2_witness :
    (0 : ℚ) ≤ 3 ∧
    (tiles_to_seconds 3 = 3 * TILE_CM / SPEED_CM_PER_S * SAFETY ∧ SAFETY < 1) :=
  ⟨by norm_num, C2_duration_formula 3 (by norm_num)⟩

/-- C3: for every integer base heading and every integer relative heading
(including negative values), the relative-to-absolute conversion is taken
modulo 360 and lies in 0..359. -/
theorem C3_heading_range (base rel : ℤ) :
    relToAbs base rel = (base + rel) % 360 ∧
    0 ≤ relToAbs base rel ∧ relToAbs base rel < 360 := by
  refine ⟨rfl, Int.emod_nonneg _ (by norm_num), ?_⟩
  exact Int.emod_lt_of_pos _ (by norm_num)

/-- C1 counterexample: at base 0, relative heading 0, one tile, speed 150,
the executor's trace is not the spec's six-action sequence — the executor
never issues the leading stop (its trace has five actions, not six). -/
theorem C1_counterexample :
    roll_forward_rel 0 0 1 150 ≠ claimedSegmentTrace 0 0 1 150 := by
  intro h
  have hlen := congrArg List.length h
  simp [roll_forward_rel, claimedSegmentTrace] at hlen

/-- C1 (amended): for every path segment, the dead-reckoning executor
performs exactly: command an absolute heading (base + relative, mod 360),
sleep the fixed settle duration, command a speed+heading+duration roll
whose duration is distance x TILE_CM / SPEED_CM_PER_S x SAFETY, stop, and
sleep the short stabilisation delay — with no stop before the heading
command. -/
theorem C1_executor_trace (base rel : ℤ) (tiles : ℚ) (speed : ℤ) :
    roll_forward_rel base rel tiles speed = amendedSegmentTrace base rel tiles speed := by
  simp only [roll_forward_rel, amendedSegmentTrace, relToAbs, tiles_to_seconds_eq]
  simp only [TILE_CM, SPEED_CM_PER_S, SAFETY]
  norm_num
  ring

/-- C8: the distance-to-duration conversion is monotone in distance, scales
linearly with distance, and scales inversely with the speed constant (for
speed constants at or above the 1e-6 guard, duration x speed is independent
of the speed constant). -/
theorem C8_scaling (d1 d2 a d s1 s2 : ℚ) (h12 : d1 ≤ d2) (ha : 0 ≤ a)
    (hs1 : 1 / 1000000 ≤ s1) (hs2 : 1 / 1000000 ≤ s2) :
    tiles_to_seconds d1 ≤ tiles_to_seconds d2 ∧
    tiles_to_seconds (a * d) = a * tiles_to_seconds d ∧
    tiles_to_seconds_gen s1 d * s1 = tiles_to_seconds_gen s2 d * s2 := by
  have hgen : ∀ s : ℚ, 1 / 1000000 ≤ s → ∀ x : ℚ,
      tiles_to_seconds_gen s x * s = x * 48 := by
    intro s hs x
    have hmax : max (1 / 1000000 : ℚ) s = s := max_eq_right hs
    have hs0 : s ≠ 0 := by
      intro h0
      rw [h0] at hs
      norm_num at hs
    simp only [tiles_to_seconds_gen, hmax, TILE_CM, SAFETY]
    field_simp
    ring
  refine ⟨?_, ?_, ?_⟩
  · rw [tiles_to_seconds_eq, tiles_to_seconds_eq]
    exact mul_le_mul_of_nonneg_right h12 (by norm_num)
  · rw [tiles_to_seconds_eq, tiles_to_seconds_eq]
    ring
  · rw [hgen s1 hs1 d, hgen s2 hs2 d]

/-- Witness for C8 at distances 1 ≤ 2, factor 3, distance 4, speeds 70 and 140. -/
theorem C8_witness :
    tiles_to_seconds 1 ≤ tiles_to_seconds 2 ∧
    tiles_to_seconds (3 * 4) = 3 * tiles_to_seconds 4 ∧
    tiles_to_seconds_gen 70 4 * 70 = tiles_to_seconds_gen 140 4 * 140 :=
  C8_scaling 1 2 3 4 70 140 (by norm_num) (by norm_num) (by norm_num) (by norm_num)

/-- C10: the conversion never divides by zero (its divisor max(1e-6, speed)
is strictly positive for every value of the speed constant), and for every
non-negative distance the returned duration is non-negative. -/
theorem C10_total_nonneg (s d : ℚ) :
    0 < max (1 / 1000000) s ∧ (0 ≤ d → 0 ≤ tiles_to_seconds_gen s d) := by
  have hpos : (0 : ℚ) < max (1 / 1000000) s :=
    lt_of_lt_of_le (by norm_num) (le_max_left _ _)
  refine ⟨hpos, fun hd => ?_⟩
  simp only [tiles_to_seconds_gen, TILE_CM, SAFETY]
  have h1 : (0 : ℚ) ≤ d * 50 := by positivity
  have h2 : (0 : ℚ) ≤ d * 50 / max (1 / 1000000) s := div_nonneg h1 hpos.le
  positivity

/-- Witness for C10 at speed 70 and distance 2. -/
theorem C10_witness :
    (0 : ℚ) < max (1 / 1000000) 70 ∧ 0 ≤ tiles_to_seconds_gen 70 2 :=
  ⟨(C10_total_nonneg 70 2).1, (C10_total_nonneg 70 2).2 (by norm_num)⟩

/-- The R1 button update of `base_heading` (line 275):
`self.base_heading = (self.base_heading + 45) % 360`. -/
def stepR1 (b : ℤ) : ℤ := (b + 45) % 360

/-- The L1 button update of `base_heading` (line 280):
`self.base_heading = (self.base_heading - 45) % 360`. -/
def stepL1 (b : ℤ) : ℤ := (b - 45) % 360

/-- Value of `base_heading` after the R1/L1 button handling of one loop
tick (lines 274-282), before the end-of-tick overwrite. -/
def tickBaseHeadingMid (b : ℤ) (r1 l1 : Bool) : ℤ :=
  let b1 := if r1 then stepR1 b else b
  if l1 then stepL1 b1 else b1

/-- Value of `base_heading` at the end of one loop tick: line 300
unconditionally executes `self.base_heading = api.get_heading()`, so the
end-of-tick value is whatever heading the toy reports, regardless of the
buttons. -/
def tickBaseHeadingEnd (b : ℤ) (r1 l1 : Bool) (apiHeading : ℤ) : ℤ :=
  let _ := tickBaseHeadingMid b r1 l1
  apiHeading

/-- Value assigned to `base_heading` by `enter_calibration_mode` (line 155):
`self.base_heading = api.get_heading()`. -/
def baseHeadingOnEnterCalibration (apiHeading : ℤ) : ℤ := apiHeading

/-- C4 counterexample: starting a tick at base_heading 0 with neither
heading-adjustment button pressed, base_heading ends the tick at the
toy-reported heading 123 — it changed without any button update, refuting
that it is updated only by the two buttons. -/
theorem C4_counterexample :
    tickBaseHeadingEnd 0 false false 123 = 123 ∧
    tickBaseHeadingEnd 0 false false 123 ≠ 0 := by
  constructor
  · rfl
  · intro h
    simp [tickBaseHeadingEnd] at h

/-- C4 (amended): the two heading-adjustment buttons update base_heading by
a fixed 45-degree increment (R1) or decrement (L1) taken modulo 360, and
each such update lands in 0..359; but base_heading is not updated only by
these buttons — it is overwritten at the end of every loop tick, and on
entering calibration mode, with the heading reported by the toy. -/
theorem C4_base_heading (b apiH : ℤ) (r1 l1 : Bool) :
    stepR1 b = (b + 45) % 360 ∧ stepL1 b = (b - 45) % 360 ∧
    (0 ≤ stepR1 b ∧ stepR1 b < 360) ∧ (0 ≤ stepL1 b ∧ stepL1 b < 360) ∧
    tickBaseHeadingEnd b r1 l1 apiH = apiH ∧
    baseHeadingOnEnterCalibration apiH = apiH := by
  refine ⟨rfl, rfl, ⟨?_, ?_⟩, ⟨?_, ?_⟩, rfl, rfl⟩
  · exact Int.emod_nonneg _ (by norm_num)
  · exact Int.emod_lt_of_pos _ (by norm_num)
  · exact Int.emod_nonneg _ (by norm_num)
  · exact Int.emod_lt_of_pos _ (by norm_num)

/-- One speed/heading command issued by the manual-driving branch. -/
inductive DriveCmd where
  | move (heading : ℤ) (speed : ℚ)
  | stop
deriving DecidableEq

/-- The manual Y-axis handling of one loop tick (lines 284-298): push past
-0.7 drives at the configured speed toward base_heading, push past +0.7
drives at speed 40 toward the reversed heading, and anything in between
issues `api.set_speed(0)`. -/
def manualDrive (y : ℚ) (base : ℤ) (speed : ℚ) : DriveCmd :=
  if y < -(7 / 10) then DriveCmd.move base speed
  else if y > 7 / 10 then DriveCmd.move ((base + 180) % 360) 40
  else DriveCmd.stop

/-- The speed commanded by the manual Y-axis handling. -/
def commandedSpeed (y : ℚ) (base : ℤ) (speed : ℚ) : ℚ :=
  match manualDrive y base speed with
  | DriveCmd.move _ s => s
  | DriveCmd.stop => 0

/-- C7 counterexample: at axis input 1 (outside the 0.7 threshold) with
configured speed 150, the commanded speed is the fixed reverse speed 40,
not the input value 1 — the filter does not return the input unchanged
outside the threshold. -/
theorem C7_counterexample :
    commandedSpeed 1 0 150 = 40 ∧ commandedSpeed 1 0 150 ≠ 1 := by
  have h : commandedSpeed 1 0 150 = 40 := by
    simp only [commandedSpeed, manualDrive]
    norm_num
  exact ⟨h, by rw [h]; norm_num⟩

/-- C7 (amended): axis inputs within the 0.7 dead-zone threshold command
speed exactly 0; inputs outside the threshold command a fixed speed — the
configured speed toward base_heading for input below -0.7, and speed 40
toward the reversed heading for input above 0.7 — not the input value. -/
theorem C7_deadzone (y : ℚ) (base : ℤ) (speed : ℚ) :
    (-(7 / 10) ≤ y → y ≤ 7 / 10 → manualDrive y base speed = DriveCmd.stop) ∧
    (y < -(7 / 10) → manualDrive y base speed = DriveCmd.move base speed) ∧
    (7 / 10 < y → manualDrive y base speed = DriveCmd.move ((base + 180) % 360) 40) := by
  refine ⟨fun h1 h2 => ?_, fun h => ?_, fun h => ?_⟩
  · simp [manualDrive, not_lt.mpr h1, not_lt.mpr h2]
  · simp [manualDrive, h]
  · have h1 : ¬ y < -(7 / 10) := by linarith
    simp [manualDrive, h1, h]

/-- Witness for C7 at inputs 0, -1 and 1. -/
theorem C7_witness :
    manualDrive 0 0 150 = DriveCmd.stop ∧
    manualDrive (-1) 0 150 = DriveCmd.move 0 150 ∧
    manualDrive 1 0 150 = DriveCmd.move ((0 + 180) % 360) 40 :=
  ⟨(C7_deadzone 0 0 150).1 (by norm_num) (by norm_num),
   (C7_deadzone (-1) 0 150).2.1 (by norm_num),
   (C7_deadzone 1 0 150).2.2 (by norm_num)⟩

/-- The usage message printed by the `__main__` guard (line 330). -/
def usageMessage : String :=
  "Usage: python script.py <toy_name> <joystickNumber 0-1> <player 1-5>"

/-- The `__main__` argument guard (lines 329-331): with fewer than four
argv entries (script name plus the three required arguments) it prints the
usage message and exits with status 1; otherwise it proceeds. -/
def cliGuard (argv : List String) : Option (String × ℕ) :=
  if argv.length < 4 then some (usageMessage, 1) else none

/-- C9: invoked with fewer than the three required arguments (so fewer than
four argv entries including the script name), the program prints the usage
message and exits with status 1. -/
theorem C9_cli_usage (argv : List String) (h : argv.length < 4) :
    cliGuard argv = some (usageMessage, 1) := by
  simp [cliGuard, h]

/-- Witness for C9 on an argv holding only the script name. -/
theorem C9_witness : cliGuard [String.mk ['s']] = some (usageMessage, 1) :=
  C9_cli_usage [String.mk ['s']] (by simp)

/-- An RGB LED color as passed to `api.set_front_led`. -/
structure LedColor where
  r : ℤ
  g : ℤ
  b : ℤ
deriving DecidableEq

/-- The LED-setting calls made by `print_battery_level` (lines 189-196):
four sequential independent `if` statements, each appending one
`set_front_led` call when its voltage band holds. -/
def batteryLedEvents (v : ℚ) : List LedColor :=
  (if v > 41 / 10 then [⟨0, 255, 0⟩] else []) ++
  (if 39 / 10 < v ∧ v ≤ 41 / 10 then [⟨255, 255, 0⟩] else []) ++
  (if 37 / 10 < v ∧ v ≤ 39 / 10 then [⟨255, 100, 0⟩] else []) ++
  (if v ≤ 37 / 10 then [⟨255, 0, 0⟩] else [])

/-- The process-termination condition of `print_battery_level` (line 197):
`if battery_voltage < 3.5: sys.exit(...)`. -/
def batteryCutoff (v : ℚ) : Bool := decide (v < 35 / 10)

/-- The battery polling guard of the control loop (line 219):
`if current_time2 - last_battery_print_time >= 30`. -/
def shouldPollBattery (now last : ℚ) : Bool := decide (now - last ≥ 30)

/-- C5: the battery monitor polls exactly when at least 30 seconds have
elapsed since the last poll; on each poll it sets exactly one of the four
LED colors (the voltage bands are mutually exclusive and exhaustive), and
it terminates the process if and only if the voltage is below the 3.5 V
critical floor — at or above the floor the process continues. -/
theorem C5_battery_monitor (v now last : ℚ) :
    (batteryLedEvents v).length = 1 ∧
    (batteryCutoff v = true ↔ v < 35 / 10) ∧
    (shouldPollBattery now last = true ↔ 30 ≤ now - last) := by
  refine ⟨?_, by simp [batteryCutoff], by simp [shouldPollBattery, ge_iff_le]⟩
  unfold batteryLedEvents
  rcases le_or_lt v (37 / 10) with h1 | h1
  · rw [if_neg (not_lt.mpr (by linarith)),
        if_neg (by rintro ⟨ha, _⟩; linarith),
        if_neg (by rintro ⟨ha, _⟩; linarith),
        if_pos h1]
    rfl
  · rcases le_or_lt v (39 / 10) with h2 | h2
    · rw [if_neg (not_lt.mpr (by linarith)),
          if_neg (by rintro ⟨ha, _⟩; linarith),
          if_pos ⟨h1, h2⟩,
          if_neg (not_le.mpr h1)]
      rfl
    · rcases le_or_lt v (41 / 10) with h3 | h3
      · rw [if_neg (not_lt.mpr h3),
            if_pos ⟨h2, h3⟩,
            if_neg (by rintro ⟨ha, _⟩; linarith),
            if_neg (by push_neg; linarith)]
        rfl
      · rw [if_pos h3,
            if_neg (by rintro ⟨_, hb⟩; linarith),
            if_neg (by rintro ⟨_, hb⟩; linarith),
            if_neg (by push_neg; linarith)]
        rfl

/-- Witness for C5 at voltages 4.0 (yellow band, no cutoff at 4.0 ≥ 3.5
handled by the iff) and 3.4 (cutoff), and a 50-second elapsed poll. -/
theorem C5_witness :
    (batteryLedEvents 4).length = 1 ∧
    batteryCutoff (34 / 10) = true ∧
    shouldPollBattery 100 50 = true :=
  ⟨(C5_battery_monitor 4 0 0).1,
   ((C5_battery_monitor (34 / 10) 0 0).2.1).mpr (by norm_num),
   ((C5_battery_monitor 0 100 50).2.2).mpr (by norm_num)⟩

/-- Number of times the control loop fires `run_autonomous_lap` over a
sequence of button-1 samples, starting from a given `previous_button`
state (lines 246-250): fire exactly when the sample reads pressed and the
previous sample read unpressed, then record the sample. -/
def invocations : Bool → List Bool → ℕ
  | _, [] => 0
  | prev, b :: rest => (if b && !prev then 1 else 0) + invocations b rest

/-- Helper: dropping a prefix never lengthens a list. -/
theorem dropWhile_length_le (p : Bool → Bool) (l : List Bool) :
    (l.dropWhile p).length ≤ l.length := by
  induction l with
  | nil => simp
  | cons b rest ih =>
    by_cases h : p b
    · simp only [List.dropWhile_cons, h, if_true]
      exact Nat.le_succ_of_le ih
    · simp [List.dropWhile_cons, h]

/-- Number of press-and-release cycles in a sample sequence: the number of
maximal runs of consecutive pressed samples. -/
def trueRuns : List Bool → ℕ
  | [] => 0
  | false :: rest => trueRuns rest
  | true :: rest => 1 + trueRuns (rest.dropWhile (fun x => x))
termination_by l => l.length
decreasing_by
  all_goals simp only [List.length_cons]
  · exact Nat.lt_succ_self _
  · exact Nat.lt_succ_of_le (dropWhile_length_le (fun x => x) rest)

/-- Helper: the detector starting in the pressed state counts the runs
after the initial held press, and starting unpressed it counts all runs. -/
theorem invocations_eq_trueRuns (l : List Bool) :
    invocations true l = trueRuns (l.dropWhile (fun x => x)) ∧
    invocations false l = trueRuns l := by
  induction l with
  | nil => simp [invocations, trueRuns]
  | cons b rest ih =>
    cases b
    · constructor
      · simp [invocations, trueRuns, List.dropWhile_cons, ih.2]
      · simp [invocations, trueRuns, ih.2]
    · constructor
      · simp [invocations, trueRuns, List.dropWhile_cons, ih.1]
      · simp [invocations, trueRuns, ih.1]

/-- Helper: a held button never retriggers the detector. -/
theorem invocations_held (n : ℕ) :
    invocations true (List.replicate n true) = 0 := by
  induction n with
  | zero => rfl
  | succ k ih => simp [List.replicate_succ, invocations, ih]

/-- C6: starting from the unpressed `previous_button` state, the
rising-edge detector fires the path-execution routine exactly once per
press-and-release cycle (once per maximal run of pressed samples), and a
button held pressed for n+1 consecutive ticks fires it exactly once, not
once per tick. -/
theorem C6_rising_edge (samples : List Bool) (n : ℕ) :
    invocations false samples = trueRuns samples ∧
    invocations false (List.replicate (n + 1) true) = 1 := by
  refine ⟨(invocations_eq_trueRuns samples).2, ?_⟩
  simp [List.replicate_succ, invocations, invocations_held]

end SpheroBall
